import Mathlib

/-!
Shallow embedding of `api/search/genes.py` (gene-related search functions of
the db-api service) together with proofs about it.

The module builds SQLAlchemy queries from a parsed boolean search-term tree,
and formats matched gene records as FASTA or CSV.  Here the relational layer
is embedded explicitly: a `Database` holds the rows of every table the module
touches, and each query-building function is translated into a function from
a `Database` (and the search value) to the list of matching `Gene` rows.
SQL set operations (`EXCEPT` / `UNION` / `INTERSECT`) are embedded with their
set semantics (deduplicating) on result lists, and `ILIKE` is embedded as
case-insensitive SQL `LIKE` pattern matching with `%` and `_` wildcards.
-/

namespace DbApi

/-! ## String helpers: SQL LIKE / ILIKE and substr -/

/-- SQL `LIKE` pattern matching over exploded strings: `%` matches any
(possibly empty) run of characters, `_` matches exactly one character, and
every other pattern character matches itself literally. -/
def likeMatch : List Char → List Char → Bool
  | [], s => s.isEmpty
  | '%' :: ps, s => s.tails.any fun t => likeMatch ps t
  | '_' :: _, [] => false
  | '_' :: ps, _ :: s => likeMatch ps s
  | _ :: _, [] => false
  | p :: ps, c :: s => (p == c) && likeMatch ps s

/-- SQL `ILIKE`: case-insensitive `LIKE`.  `sqlIlike v p` embeds the
SQLAlchemy expression `column.ilike(pattern)`, i.e. `v ILIKE p`. -/
def sqlIlike (value pattern : String) : Bool :=
  likeMatch (pattern.data.map Char.toLower) (value.data.map Char.toLower)

/-- SQL `substr(s, start, count)` for a 1-based positive `start`: the run of
at most `count` characters of `s` beginning at position `start`. -/
def sqlSubstr (s : String) (start count : Nat) : String :=
  String.mk (((s.data).drop (start - 1)).take count)

/-! ## Reverse complement (source lines 232-237) -/

/-- The character translation defined by
`TRANS_TABLE = string.maketrans('ATGCatgc', 'TACGtacg')`: each of the eight
base characters is sent to its partner, every other character to itself. -/
def complementChar (c : Char) : Char :=
  if c = 'A' then 'T'
  else if c = 'T' then 'A'
  else if c = 'G' then 'C'
  else if c = 'C' then 'G'
  else if c = 'a' then 't'
  else if c = 't' then 'a'
  else if c = 'g' then 'c'
  else if c = 'c' then 'g'
  else c

/-- `reverse_completement` (sic, source name): translate through
`TRANS_TABLE`, then reverse the character order (`[::-1]`). -/
def reverse_completement (sequence : String) : String :=
  String.mk ((sequence.data.map complementChar).reverse)

/-- The eight base characters handled by `TRANS_TABLE`. -/
def baseChars : List Char := ['A', 'T', 'G', 'C', 'a', 't', 'g', 'c']

/-! ## Data model

Modelled from the spec: the entity definitions live in `api/models.py`, which
is not part of this repository snapshot; only the columns and relationships
the spec names are embedded.  A `Gene` row is "joined through
Locus → DnaSequence → Genome → Taxa, and through cluster-membership tables to
Bgc/BgcType, ClusterblastHit, Profile, AsDomain, Compound, Monomer", so each
table row carries its primary key and the foreign key of its parent in those
chains. -/

/-- A row of the `Gene` table. -/
structure Gene where
  gene_id : Nat
  locus_tag : String
  locus_id : Nat
deriving DecidableEq, Repr

/-- A row of the `Locus` table: a coordinate range on a DNA sequence. -/
structure Locus where
  locus_id : Nat
  sequence_id : Nat
  start_pos : Nat
  end_pos : Nat
  strand : String
deriving DecidableEq, Repr

/-- A row of the `DnaSequence` table. -/
structure DnaSequence where
  sequence_id : Nat
  genome_id : Nat
  acc : String
  version : Nat
  dna : String
deriving DecidableEq, Repr

/-- A row of the `Genome` table. -/
structure Genome where
  genome_id : Nat
  tax_id : Nat
deriving DecidableEq, Repr

/-- A row of the `Taxa` table. -/
structure Taxa where
  tax_id : Nat
  strain : String
  species : String
  genus : String
  family : String
  tax_order : String
  _class : String
  phylum : String
  superkingdom : String
deriving DecidableEq, Repr

/-- A row of the `t_gene_cluster_map` association table. -/
structure GeneClusterMap where
  gene_id : Nat
  bgc_id : Nat
deriving DecidableEq, Repr

/-- A row of the `BiosyntheticGeneCluster` (`Bgc`) table. -/
structure Bgc where
  bgc_id : Nat
deriving DecidableEq, Repr

/-- A row of the `t_rel_clusters_types` association table. -/
structure RelClustersTypes where
  bgc_id : Nat
  bgc_type_id : Nat
deriving DecidableEq, Repr

/-- A row of the `BgcType` table. -/
structure BgcType where
  bgc_type_id : Nat
  term : String
  description : String
deriving DecidableEq, Repr

/-- A row of the `ClusterblastHit` table. -/
structure ClusterblastHit where
  bgc_id : Nat
  algorithm_id : Nat
  acc : String
deriving DecidableEq, Repr

/-- A row of the `ClusterblastAlgorithm` table. -/
structure ClusterblastAlgorithm where
  algorithm_id : Nat
  name : String
deriving DecidableEq, Repr

/-- A row of the `AsDomain` table. -/
structure AsDomain where
  as_domain_id : Nat
  gene_id : Nat
  name : String
deriving DecidableEq, Repr

/-- A row of the `RelAsDomainsMonomer` association table. -/
structure RelAsDomainsMonomer where
  as_domain_id : Nat
  monomer_id : Nat
deriving DecidableEq, Repr

/-- A row of the `Monomer` table. -/
structure Monomer where
  monomer_id : Nat
  name : String
deriving DecidableEq, Repr

/-- A row of the `Compound` table. -/
structure Compound where
  locus_tag : String
  peptide_sequence : String
  _class : String
deriving DecidableEq, Repr

/-- A row of the `ProfileHit` table. -/
structure ProfileHit where
  gene_id : Nat
  name : String
deriving DecidableEq, Repr

/-- A row of the `Profile` table. -/
structure Profile where
  name : String
deriving DecidableEq, Repr

/-- The relational store: the rows of every table the module queries. -/
structure Database where
  genes : List Gene
  loci : List Locus
  dna_sequences : List DnaSequence
  genomes : List Genome
  taxa : List Taxa
  gene_cluster_map : List GeneClusterMap
  bgcs : List Bgc
  rel_clusters_types : List RelClustersTypes
  bgc_types : List BgcType
  clusterblast_hits : List ClusterblastHit
  clusterblast_algorithms : List ClusterblastAlgorithm
  as_domains : List AsDomain
  rel_as_domains_monomer : List RelAsDomainsMonomer
  monomers : List Monomer
  compounds : List Compound
  profile_hits : List ProfileHit
  profiles : List Profile
deriving Repr

/-! ## SQL set operations

`Query.except_` / `Query.union` / `Query.intersect` of SQLAlchemy compile to
SQL `EXCEPT` / `UNION` / `INTERSECT`, which have set (deduplicating)
semantics. -/

/-- SQL `EXCEPT`: rows of `a` not present in `b`, deduplicated. -/
def sqlExcept (a b : List Gene) : List Gene :=
  (a.filter fun g => decide (g ∉ b)).dedup

/-- SQL `UNION`: rows present in `a` or `b`, deduplicated. -/
def sqlUnion (a b : List Gene) : List Gene :=
  (a ++ b).dedup

/-- SQL `INTERSECT`: rows present in both `a` and `b`, deduplicated. -/
def sqlIntersect (a b : List Gene) : List Gene :=
  (a.filter fun g => decide (g ∈ b)).dedup

/-! ## Query handlers (source lines 60-192)

Each SQLAlchemy `Gene.query.join(...)...filter(...)` chain is embedded as the
list of `Gene` rows of the corresponding join, filtered.  Join conditions are
the foreign-key chains named by the spec (`api/models.py` is not in the
snapshot). -/

/-- One row of the taxonomy join Gene → Locus → DnaSequence → Genome → Taxa. -/
structure TaxRow where
  gene : Gene
  locus : Locus
  sequence : DnaSequence
  genome : Genome
  taxa : Taxa
deriving DecidableEq, Repr

/-- `query_taxon_generic`: the join Gene → Locus → DnaSequence → Genome → Taxa. -/
def query_taxon_generic (db : Database) : List TaxRow :=
  db.genes.flatMap fun g =>
    (db.loci.filter fun l => g.locus_id == l.locus_id).flatMap fun l =>
      (db.dna_sequences.filter fun d => l.sequence_id == d.sequence_id).flatMap fun d =>
        (db.genomes.filter fun gn => d.genome_id == gn.genome_id).flatMap fun gn =>
          (db.taxa.filter fun t => gn.tax_id == t.tax_id).map fun t =>
            { gene := g, locus := l, sequence := d, genome := gn, taxa := t }

/-- `query_taxid`: filter `Taxa.tax_id == term`.  The SQL layer casts the
string search value to the column's integer type; a value that is not a
numeral matches nothing. -/
def query_taxid (db : Database) (term : String) : List Gene :=
  ((query_taxon_generic db).filter fun r => term.toNat? == some r.taxa.tax_id).map (·.gene)

/-- `query_strain`: filter `Taxa.strain.ilike(term)`. -/
def query_strain (db : Database) (term : String) : List Gene :=
  ((query_taxon_generic db).filter fun r => sqlIlike r.taxa.strain term).map (·.gene)

/-- `query_species`: filter `Taxa.species.ilike(term)`. -/
def query_species (db : Database) (term : String) : List Gene :=
  ((query_taxon_generic db).filter fun r => sqlIlike r.taxa.species term).map (·.gene)

/-- `query_genus`: filter `Taxa.genus.ilike(term)`. -/
def query_genus (db : Database) (term : String) : List Gene :=
  ((query_taxon_generic db).filter fun r => sqlIlike r.taxa.genus term).map (·.gene)

/-- `query_family`: filter `Taxa.family.ilike(term)`. -/
def query_family (db : Database) (term : String) : List Gene :=
  ((query_taxon_generic db).filter fun r => sqlIlike r.taxa.family term).map (·.gene)

/-- `query_order`: filter `Taxa.order.ilike(term)`. -/
def query_order (db : Database) (term : String) : List Gene :=
  ((query_taxon_generic db).filter fun r => sqlIlike r.taxa.tax_order term).map (·.gene)

/-- `query_class`: filter `Taxa._class.ilike(term)`. -/
def query_class (db : Database) (term : String) : List Gene :=
  ((query_taxon_generic db).filter fun r => sqlIlike r.taxa._class term).map (·.gene)

/-- `query_phylum`: filter `Taxa.phylum.ilike(term)`. -/
def query_phylum (db : Database) (term : String) : List Gene :=
  ((query_taxon_generic db).filter fun r => sqlIlike r.taxa.phylum term).map (·.gene)

/-- `query_superkingdom`: filter `Taxa.superkingdom.ilike(term)`. -/
def query_superkingdom (db : Database) (term : String) : List Gene :=
  ((query_taxon_generic db).filter fun r => sqlIlike r.taxa.superkingdom term).map (·.gene)

/-- `query_acc`: join Gene → Locus → DnaSequence, filter
`DnaSequence.acc.ilike(term)`. -/
def query_acc (db : Database) (term : String) : List Gene :=
  ((db.genes.flatMap fun g =>
    (db.loci.filter fun l => g.locus_id == l.locus_id).flatMap fun l =>
      (db.dna_sequences.filter fun d => l.sequence_id == d.sequence_id).map fun d =>
        (g, d))
  |>.filter fun p => sqlIlike p.2.acc term).map (·.1)

/-- `query_type`: join Gene → t_gene_cluster_map → Bgc → t_rel_clusters_types
→ BgcType, filter on term or description ILIKE with explicit `%...%`
wildcards. -/
def query_type (db : Database) (term : String) : List Gene :=
  ((db.genes.flatMap fun g =>
    (db.gene_cluster_map.filter fun m => g.gene_id == m.gene_id).flatMap fun m =>
      (db.bgcs.filter fun b => m.bgc_id == b.bgc_id).flatMap fun b =>
        (db.rel_clusters_types.filter fun rel => b.bgc_id == rel.bgc_id).flatMap fun rel =>
          (db.bgc_types.filter fun bt => rel.bgc_type_id == bt.bgc_type_id).map fun bt =>
            (g, bt))
  |>.filter fun p =>
    sqlIlike p.2.term ("%" ++ term ++ "%") || sqlIlike p.2.description ("%" ++ term ++ "%")).map (·.1)

/-- `query_monomer`: join Gene → AsDomain → RelAsDomainsMonomer → Monomer,
filter `Monomer.name.ilike(term)`. -/
def query_monomer (db : Database) (term : String) : List Gene :=
  ((db.genes.flatMap fun g =>
    (db.as_domains.filter fun a => g.gene_id == a.gene_id).flatMap fun a =>
      (db.rel_as_domains_monomer.filter fun rel => a.as_domain_id == rel.as_domain_id).flatMap fun rel =>
        (db.monomers.filter fun m => rel.monomer_id == m.monomer_id).map fun m =>
          (g, m))
  |>.filter fun p => sqlIlike p.2.name term).map (·.1)

/-- `query_compoundseq`: join Compound on `Gene.locus_tag == Compound.locus_tag`,
filter `Compound.peptide_sequence.ilike(term)`. -/
def query_compoundseq (db : Database) (term : String) : List Gene :=
  ((db.genes.flatMap fun g =>
    (db.compounds.filter fun c => g.locus_tag == c.locus_tag).map fun c => (g, c))
  |>.filter fun p => sqlIlike p.2.peptide_sequence term).map (·.1)

/-- `query_compoundclass`: join Compound on `Gene.locus_tag == Compound.locus_tag`,
filter `Compound._class.ilike(term)`. -/
def query_compoundclass (db : Database) (term : String) : List Gene :=
  ((db.genes.flatMap fun g =>
    (db.compounds.filter fun c => g.locus_tag == c.locus_tag).map fun c => (g, c))
  |>.filter fun p => sqlIlike p.2._class term).map (·.1)

/-- `query_profile`: join Gene → ProfileHit → Profile, filter
`Profile.name.ilike(term)`. -/
def query_profile (db : Database) (term : String) : List Gene :=
  ((db.genes.flatMap fun g =>
    (db.profile_hits.filter fun ph => g.gene_id == ph.gene_id).flatMap fun ph =>
      (db.profiles.filter fun pr => ph.name == pr.name).map fun pr => (g, pr))
  |>.filter fun p => sqlIlike p.2.name term).map (·.1)

/-- `query_asdomain`: join Gene → AsDomain, filter `AsDomain.name.ilike(term)`. -/
def query_asdomain (db : Database) (term : String) : List Gene :=
  ((db.genes.flatMap fun g =>
    (db.as_domains.filter fun a => g.gene_id == a.gene_id).map fun a => (g, a))
  |>.filter fun p => sqlIlike p.2.name term).map (·.1)

/-- `gene_by_x_clusterblast`: join Gene → t_gene_cluster_map → Bgc →
ClusterblastHit → ClusterblastAlgorithm, filter the algorithm name exactly and
`ClusterblastHit.acc.ilike(term)`. -/
def gene_by_x_clusterblast (db : Database) (term algorithm : String) : List Gene :=
  ((db.genes.flatMap fun g =>
    (db.gene_cluster_map.filter fun m => g.gene_id == m.gene_id).flatMap fun m =>
      (db.bgcs.filter fun b => m.bgc_id == b.bgc_id).flatMap fun b =>
        (db.clusterblast_hits.filter fun h => b.bgc_id == h.bgc_id).flatMap fun h =>
          (db.clusterblast_algorithms.filter fun alg => h.algorithm_id == alg.algorithm_id).map fun alg =>
            (g, h, alg))
  |>.filter (fun p => p.2.2.name == algorithm)
  |>.filter fun p => sqlIlike p.2.1.acc term).map (·.1)

/-- `query_clusterblast`: ClusterBlast hits of the `clusterblast` algorithm. -/
def query_clusterblast (db : Database) (term : String) : List Gene :=
  gene_by_x_clusterblast db term "clusterblast"

/-- `query_knowncluster`: ClusterBlast hits of the `knownclusterblast` algorithm. -/
def query_knowncluster (db : Database) (term : String) : List Gene :=
  gene_by_x_clusterblast db term "knownclusterblast"

/-- `query_subcluster`: ClusterBlast hits of the `subclusterblast` algorithm. -/
def query_subcluster (db : Database) (term : String) : List Gene :=
  gene_by_x_clusterblast db term "subclusterblast"

/-! ## Query registry -/

/-- The `GENE_QUERIES` registry.  Modelled from the spec: `register_handler`
lives in `helpers.py`, outside the snapshot; per the spec it populates the
mapping once at load time, keying each handler by its search category — the
handler's function name without the `query_` prefix. -/
def GENE_QUERIES : String → Option (Database → String → List Gene)
  | "taxid" => some query_taxid
  | "strain" => some query_strain
  | "species" => some query_species
  | "genus" => some query_genus
  | "family" => some query_family
  | "order" => some query_order
  | "class" => some query_class
  | "phylum" => some query_phylum
  | "superkingdom" => some query_superkingdom
  | "acc" => some query_acc
  | "type" => some query_type
  | "monomer" => some query_monomer
  | "compoundseq" => some query_compoundseq
  | "compoundclass" => some query_compoundclass
  | "profile" => some query_profile
  | "asdomain" => some query_asdomain
  | "clusterblast" => some query_clusterblast
  | "knowncluster" => some query_knowncluster
  | "subcluster" => some query_subcluster
  | _ => none

/-! ## Term evaluator (source lines 40-57) -/

/-- A parsed search term: either an expression leaf (`kind == 'expression'`)
or a boolean operation node (`kind == 'operation'`). -/
inductive Term where
  | expression (category : String) (term : String)
  | operation (operation : String) (left : Term) (right : Term)
deriving DecidableEq, Repr

/-- `gene_query_from_term`: recursively generate a query from the search
terms.  An expression leaf dispatches through `GENE_QUERIES`, falling back to
`Gene.query.filter(sql.false())` (the empty result) for unknown categories;
an operation node evaluates both children and combines them with the SQL set
operation named by its tag, any other tag falling through to the empty
result. -/
def gene_query_from_term (db : Database) : Term → List Gene
  | Term.expression category t =>
      match GENE_QUERIES category with
      | some handler => handler db t
      | none => []
  | Term.operation operation left right =>
      let left_query := gene_query_from_term db left
      let right_query := gene_query_from_term db right
      if operation = "except" then sqlExcept left_query right_query
      else if operation = "or" then sqlUnion left_query right_query
      else if operation = "and" then sqlIntersect left_query right_query
      else []

/-- Does every Expression leaf of the term use a category absent from the
query registry? -/
def allLeafCategoriesUnknown : Term → Bool
  | Term.expression category _ => (GENE_QUERIES category).isNone
  | Term.operation _ left right =>
      allLeafCategoriesUnknown left && allLeafCategoriesUnknown right

/-! ## Formatters and sequence extraction (source lines 199-229)

The formatters receive materialized gene records and navigate the ORM
relationships `gene.locus` and `gene.locus.sequence`; those record views are
embedded directly. -/

/-- The fields of `gene.locus.sequence` the formatters read. -/
structure SequenceView where
  acc : String
  version : Nat
deriving DecidableEq, Repr

/-- The fields of `gene.locus` the formatters and the extractor read. -/
structure LocusView where
  sequence : SequenceView
  sequence_id : Nat
  start_pos : Nat
  end_pos : Nat
  strand : String
deriving DecidableEq, Repr

/-- A materialized gene record as consumed by the formatters. -/
structure GeneView where
  locus_tag : String
  locus : LocusView
deriving DecidableEq, Repr

/-- `format_csv`: a fixed header line, then one tab-separated line per gene
with `locus_tag`, `acc.version`, `start_pos`, `end_pos`, `strand`. -/
def format_csv (genes : List GeneView) : List String :=
  "#Locus tag\tAccession\tStart\tEnd\tStrand" ::
    genes.map fun g =>
      g.locus_tag ++ "\t" ++ g.locus.sequence.acc ++ "." ++ toString g.locus.sequence.version ++
        "\t" ++ toString g.locus.start_pos ++ "\t" ++ toString g.locus.end_pos ++
        "\t" ++ g.locus.strand

/-- `_extract_sequence`: run
`substr(DnaSequence.dna, start_pos + 1, end_pos - start_pos)` against the one
`DnaSequence` row with the locus's `sequence_id` (`.one()` raises — here
`none` — unless exactly one row matches), then reverse-complement the result
when the locus strand is `-`. -/
def _extract_sequence (db : Database) (gene : GeneView) : Option String :=
  match db.dna_sequences.filter (fun s => s.sequence_id == gene.locus.sequence_id) with
  | [row] =>
      let sequence := sqlSubstr row.dna (gene.locus.start_pos + 1)
        (gene.locus.end_pos - gene.locus.start_pos)
      some (if gene.locus.strand = "-" then reverse_completement sequence else sequence)
  | _ => none

/-! ## Spec-side definitions

These follow the wording of the specification (not the source) and exist to
be compared with the embedded source functions. -/

/-- The substring of `s` covering 1-based inclusive positions `a + 1` through
`b`, as the spec describes the extraction range `[start_pos+1, end_pos]`. -/
def specSubstringOneBased (s : String) (a b : Nat) : String :=
  String.mk ((s.data.take b).drop a)

/-- The base pairing as the spec words it: `A↔T` and `G↔C`, preserving case. -/
def claimed_pairing : List (Char × Char) :=
  [('A', 'T'), ('T', 'A'), ('G', 'C'), ('C', 'G'),
   ('a', 't'), ('t', 'a'), ('g', 'c'), ('c', 'g')]

/-- Complement a single character per the spec's pairing, leaving characters
outside the pairing unchanged. -/
def claimed_complement (c : Char) : Char :=
  ((claimed_pairing.find? fun p => p.1 == c).map Prod.snd).getD c

/-- Case-insensitive substring containment: `needle` occurs contiguously
inside `haystack`, ignoring case. -/
def icontains (needle haystack : String) : Bool :=
  let n := needle.data.map Char.toLower
  let h := haystack.data.map Char.toLower
  (List.range (h.length + 1)).any fun i => (h.drop i).take n.length == n

/-- The ClusterBlast search as the claim describes it: the same join chain
restricted to the named algorithm, but with the hit accession matched against
the search value by case-insensitive substring containment. -/
def claimed_clusterblast_query (db : Database) (term algorithm : String) : List Gene :=
  ((db.genes.flatMap fun g =>
    (db.gene_cluster_map.filter fun m => g.gene_id == m.gene_id).flatMap fun m =>
      (db.bgcs.filter fun b => m.bgc_id == b.bgc_id).flatMap fun b =>
        (db.clusterblast_hits.filter fun h => b.bgc_id == h.bgc_id).flatMap fun h =>
          (db.clusterblast_algorithms.filter fun alg => h.algorithm_id == alg.algorithm_id).map fun alg =>
            (g, h, alg))
  |>.filter (fun p => p.2.2.name == algorithm)
  |>.filter fun p => icontains term p.2.1.acc).map (·.1)

/-! ## Concrete data for witnesses -/

/-- A sample gene row. -/
def sampleGene : Gene := { gene_id := 1, locus_tag := "SCO0001", locus_id := 10 }

/-- A small concrete database: one gene on the minus strand of one sequence
of a Streptomyces genome. -/
def sampleDb : Database :=
  { genes := [sampleGene]
    loci := [{ locus_id := 10, sequence_id := 20, start_pos := 2, end_pos := 5, strand := "-" }]
    dna_sequences := [{ sequence_id := 20, genome_id := 30, acc := "NC_003888", version := 3,
                        dna := "AATGCAGG" }]
    genomes := [{ genome_id := 30, tax_id := 40 }]
    taxa := [{ tax_id := 40, strain := "A3(2)", species := "coelicolor",
               genus := "Streptomyces", family := "Streptomycetaceae",
               tax_order := "Actinomycetales", _class := "Actinobacteria",
               phylum := "Actinobacteria", superkingdom := "Bacteria" }]
    gene_cluster_map := []
    bgcs := []
    rel_clusters_types := []
    bgc_types := []
    clusterblast_hits := []
    clusterblast_algorithms := []
    as_domains := []
    rel_as_domains_monomer := []
    monomers := []
    compounds := []
    profile_hits := []
    profiles := [] }

/-- The materialized view of `sampleGene` as the formatters would receive it. -/
def sampleGeneView : GeneView :=
  { locus_tag := "SCO0001"
    locus := { sequence := { acc := "NC_003888", version := 3 }
               sequence_id := 20, start_pos := 2, end_pos := 5, strand := "-" } }

/-- A concrete database holding one gene whose cluster has a ClusterBlast hit
with accession `XABX` under the `clusterblast` algorithm. -/
def cbDb : Database :=
  { genes := [{ gene_id := 1, locus_tag := "g1", locus_id := 1 }]
    loci := []
    dna_sequences := []
    genomes := []
    taxa := []
    gene_cluster_map := [{ gene_id := 1, bgc_id := 5 }]
    bgcs := [{ bgc_id := 5 }]
    rel_clusters_types := []
    bgc_types := []
    clusterblast_hits := [{ bgc_id := 5, algorithm_id := 7, acc := "XABX" }]
    clusterblast_algorithms := [{ algorithm_id := 7, name := "clusterblast" }]
    as_domains := []
    rel_as_domains_monomer := []
    monomers := []
    compounds := []
    profile_hits := []
    profiles := [] }

/-! ## Helper lemmas -/

theorem mem_sqlExcept (a b : List Gene) (g : Gene) :
    g ∈ sqlExcept a b ↔ g ∈ a ∧ g ∉ b := by
  simp [sqlExcept, List.mem_dedup, List.mem_filter]

theorem mem_sqlUnion (a b : List Gene) (g : Gene) :
    g ∈ sqlUnion a b ↔ g ∈ a ∨ g ∈ b := by
  simp [sqlUnion, List.mem_dedup]

theorem mem_sqlIntersect (a b : List Gene) (g : Gene) :
    g ∈ sqlIntersect a b ↔ g ∈ a ∧ g ∈ b := by
  simp [sqlIntersect, List.mem_dedup, List.mem_filter]

theorem gene_query_operation_and (db : Database) (A B : Term) :
    gene_query_from_term db (Term.operation "and" A B) =
      sqlIntersect (gene_query_from_term db A) (gene_query_from_term db B) := by
  simp [gene_query_from_term]

theorem gene_query_operation_or (db : Database) (A B : Term) :
    gene_query_from_term db (Term.operation "or" A B) =
      sqlUnion (gene_query_from_term db A) (gene_query_from_term db B) := by
  simp [gene_query_from_term]

theorem gene_query_operation_except (db : Database) (A B : Term) :
    gene_query_from_term db (Term.operation "except" A B) =
      sqlExcept (gene_query_from_term db A) (gene_query_from_term db B) := by
  simp [gene_query_from_term]

/-! ## C1 -/

/-- **C1**: `evaluate` on an Operation node evaluates both children and
combines them with set semantics: `and` is intersection, `or` is union, and
`except` is the set difference of the left results minus the right results. -/
theorem operation_set_semantics (db : Database) (A B : Term) (g : Gene) :
    (g ∈ gene_query_from_term db (Term.operation "and" A B) ↔
      g ∈ gene_query_from_term db A ∧ g ∈ gene_query_from_term db B) ∧
    (g ∈ gene_query_from_term db (Term.operation "or" A B) ↔
      g ∈ gene_query_from_term db A ∨ g ∈ gene_query_from_term db B) ∧
    (g ∈ gene_query_from_term db (Term.operation "except" A B) ↔
      g ∈ gene_query_from_term db A ∧ g ∉ gene_query_from_term db B) := by
  refine ⟨?_, ?_, ?_⟩
  · rw [gene_query_operation_and, mem_sqlIntersect]
  · rw [gene_query_operation_or, mem_sqlUnion]
  · rw [gene_query_operation_except, mem_sqlExcept]

/-! ## C2 -/

/-- **C2**: on an Expression leaf, `evaluate` never raises: when the category
is absent from the query registry it returns the query matching zero rows,
and when the category is registered it returns the registered handler applied
to the term's value. -/
theorem expression_dispatch (db : Database) (category t : String) :
    (GENE_QUERIES category = none →
      gene_query_from_term db (Term.expression category t) = []) ∧
    (∀ handler, GENE_QUERIES category = some handler →
      gene_query_from_term db (Term.expression category t) = handler db t) := by
  constructor
  · intro h
    simp [gene_query_from_term, h]
  · intro handler h
    simp [gene_query_from_term, h]

/-- Witness for C2 at concrete inputs: the unregistered category
`frobnicate` gives the empty result, and the registered category `genus`
dispatches to `query_genus`. -/
theorem expression_dispatch_witness :
    gene_query_from_term sampleDb (Term.expression "frobnicate" "x") = [] ∧
    gene_query_from_term sampleDb (Term.expression "genus" "Streptomyces") =
      query_genus sampleDb "Streptomyces" :=
  ⟨(expression_dispatch sampleDb "frobnicate" "x").1 rfl,
   (expression_dispatch sampleDb "genus" "Streptomyces").2 query_genus rfl⟩

/-! ## C6 -/

/-- **C6**: a term tree of any depth and with any operation tags whose every
Expression leaf has an unregistered category evaluates to the empty result
set. -/
theorem unknown_leaves_evaluate_empty (db : Database) (t : Term)
    (h : allLeafCategoriesUnknown t = true) :
    gene_query_from_term db t = [] := by
  induction t with
  | expression category v =>
      simp only [allLeafCategoriesUnknown, Option.isNone_iff_eq_none] at h
      simp [gene_query_from_term, h]
  | operation op l r ihl ihr =>
      simp only [allLeafCategoriesUnknown, Bool.and_eq_true] at h
      obtain ⟨hl, hr⟩ := h
      simp only [gene_query_from_term, ihl hl, ihr hr]
      split_ifs <;> rfl

/-- Witness for C6 at a concrete tree: a nested tree mixing a known
operation tag with an unknown one, every leaf category unregistered,
evaluates to the empty result. -/
theorem unknown_leaves_evaluate_empty_witness :
    gene_query_from_term sampleDb
      (Term.operation "or" (Term.expression "bogus" "x")
        (Term.operation "weird" (Term.expression "nope" "y")
          (Term.expression "nah" "z"))) = [] :=
  unknown_leaves_evaluate_empty sampleDb
    (Term.operation "or" (Term.expression "bogus" "x")
      (Term.operation "weird" (Term.expression "nope" "y")
        (Term.expression "nah" "z"))) rfl

/-! ## Character-level lemmas for the reverse complement -/

theorem complementChar_eq_claimed_of_base (c : Char) (h : c ∈ baseChars) :
    complementChar c = claimed_complement c := by
  fin_cases h <;> rfl

theorem complementChar_involutive (c : Char) :
    complementChar (complementChar c) = c := by
  by_cases h1 : c = 'A'
  · subst h1; rfl
  by_cases h2 : c = 'T'
  · subst h2; rfl
  by_cases h3 : c = 'G'
  · subst h3; rfl
  by_cases h4 : c = 'C'
  · subst h4; rfl
  by_cases h5 : c = 'a'
  · subst h5; rfl
  by_cases h6 : c = 't'
  · subst h6; rfl
  by_cases h7 : c = 'g'
  · subst h7; rfl
  by_cases h8 : c = 'c'
  · subst h8; rfl
  simp [complementChar, h1, h2, h3, h4, h5, h6, h7, h8]

theorem complementChar_eq_self_of_not_base (c : Char) (h : c ∉ baseChars) :
    complementChar c = c := by
  simp only [baseChars, List.mem_cons, List.not_mem_nil, or_false] at h
  push_neg at h
  obtain ⟨h1, h2, h3, h4, h5, h6, h7, h8⟩ := h
  simp [complementChar, h1, h2, h3, h4, h5, h6, h7, h8]

/-! ## C4 -/

/-- **C4**: on strings over the eight base characters, the reverse complement
maps every character through the pairing `A↔T`, `G↔C` (case preserved) and
then reverses the order; in particular it sends `ATGC` to `GCAT`. -/
theorem reverse_completement_pairs_then_reverses (s : String)
    (h : ∀ c ∈ s.data, c ∈ baseChars) :
    reverse_completement s = String.mk ((s.data.map claimed_complement).reverse) ∧
    reverse_completement "ATGC" = "GCAT" := by
  refine ⟨?_, rfl⟩
  unfold reverse_completement
  rw [List.map_congr_left fun c hc => complementChar_eq_claimed_of_base c (h c hc)]

/-- Witness for C4 at the concrete string `AaTtGgCc`. -/
theorem reverse_completement_pairs_then_reverses_witness :
    reverse_completement "AaTtGgCc" =
      String.mk (("AaTtGgCc".data.map claimed_complement).reverse) ∧
    reverse_completement "ATGC" = "GCAT" :=
  reverse_completement_pairs_then_reverses "AaTtGgCc" (by decide)

/-! ## C5 -/

/-- **C5**: the reverse complement is an involution on strings over the eight
base characters. -/
theorem reverse_completement_involution (s : String)
    (h : ∀ c ∈ s.data, c ∈ baseChars) :
    reverse_completement (reverse_completement s) = s := by
  obtain ⟨l⟩ := s
  show String.mk ((((l.map complementChar).reverse).map complementChar).reverse) = String.mk l
  rw [List.map_reverse, List.reverse_reverse, List.map_map]
  have hmap : List.map (complementChar ∘ complementChar) l = List.map id l :=
    List.map_congr_left fun c _ => complementChar_involutive c
  rw [hmap, List.map_id]

/-- Witness for C5 at the concrete string `GATTACAgattaca`. -/
theorem reverse_completement_involution_witness :
    reverse_completement (reverse_completement "GATTACAgattaca") = "GATTACAgattaca" :=
  reverse_completement_involution "GATTACAgattaca" (by decide)

/-! ## C10 -/

/-- **C10**: on every input string the reverse complement preserves the
length, and a character outside the eight bases (such as `N`) passes through
uncomplemented, appearing at the mirrored position of the reversed output. -/
theorem reverse_completement_preserves_non_bases (s : String) (i : Nat)
    (hi : i < s.length) (hc : s.data.getD i 'A' ∉ baseChars) :
    (reverse_completement s).length = s.length ∧
    (reverse_completement s).data.getD (s.length - 1 - i) 'A' = s.data.getD i 'A' := by
  obtain ⟨l⟩ := s
  have hi' : i < l.length := hi
  constructor
  · show ((l.map complementChar).reverse).length = l.length
    simp
  · show ((l.map complementChar).reverse).getD (l.length - 1 - i) 'A' = l.getD i 'A'
    have hlen : l.length - 1 - i < (l.map complementChar).length := by
      simp only [List.length_map]
      omega
    have hidx : (l.map complementChar).length - 1 - (l.length - 1 - i) = i := by
      simp only [List.length_map]
      omega
    rw [List.getD_eq_getElem?_getD, List.getElem?_reverse hlen, hidx,
      List.getElem?_map, List.getElem?_eq_getElem hi']
    simp only [Option.map_some', Option.getD_some]
    rw [List.getD_eq_getElem l 'A' hi'] at hc ⊢
    exact complementChar_eq_self_of_not_base _ hc

/-- Witness for C10 at the concrete string `ANT` with the ambiguity code `N`
at index 1. -/
theorem reverse_completement_preserves_non_bases_witness :
    (reverse_completement "ANT").length = ("ANT" : String).length ∧
    (reverse_completement "ANT").data.getD (("ANT" : String).length - 1 - 1) 'A' =
      ("ANT" : String).data.getD 1 'A' :=
  reverse_completement_preserves_non_bases "ANT" 1 (by decide) (by decide)

/-! ## C3 -/

theorem sqlSubstr_one_based (s : String) (a b : Nat) :
    sqlSubstr s (a + 1) (b - a) = specSubstringOneBased s a b := by
  simp only [sqlSubstr, specSubstringOneBased, Nat.add_sub_cancel, List.drop_take]

/-- **C3**: when the locus's `sequence_id` matches exactly one `DnaSequence`
row, the extracted sequence is the substring of that row's DNA covering the
1-based inclusive positions `start_pos + 1` through `end_pos`, and it is
reverse-complemented exactly when the locus strand is `-`. -/
theorem extract_sequence_spec (db : Database) (gene : GeneView) (row : DnaSequence)
    (h : db.dna_sequences.filter (fun s => s.sequence_id == gene.locus.sequence_id) = [row]) :
    _extract_sequence db gene =
      some (if gene.locus.strand = "-" then
              reverse_completement
                (specSubstringOneBased row.dna gene.locus.start_pos gene.locus.end_pos)
            else
              specSubstringOneBased row.dna gene.locus.start_pos gene.locus.end_pos) := by
  unfold _extract_sequence
  rw [h]
  show some (if gene.locus.strand = "-" then
        reverse_completement (sqlSubstr row.dna (gene.locus.start_pos + 1)
          (gene.locus.end_pos - gene.locus.start_pos))
      else sqlSubstr row.dna (gene.locus.start_pos + 1)
          (gene.locus.end_pos - gene.locus.start_pos)) = _
  rw [sqlSubstr_one_based]

/-- Witness for C3 at the concrete minus-strand gene of `sampleDb`: positions
3 through 5 of `AATGCAGG` are `TGC`, whose reverse complement is `GCA`. -/
theorem extract_sequence_spec_witness :
    _extract_sequence sampleDb sampleGeneView =
      some (reverse_completement (specSubstringOneBased "AATGCAGG" 2 5)) ∧
    _extract_sequence sampleDb sampleGeneView = some "GCA" := by
  have h := extract_sequence_spec sampleDb sampleGeneView
    { sequence_id := 20, genome_id := 30, acc := "NC_003888", version := 3, dna := "AATGCAGG" }
    rfl
  rw [h]
  exact ⟨rfl, rfl⟩

/-! ## C9 -/

/-- **C9**: the CSV formatter emits the fixed header line first followed by
exactly one line per input gene (so the output has input length + 1 lines),
each line holding the tab-separated `locus_tag`, `acc.version`, `start_pos`,
`end_pos` and `strand` of the gene at the same position of the input — no
sorting and no deduplication. -/
theorem format_csv_shape (genes : List GeneView) (i : Nat) (hi : i < genes.length) :
    (format_csv genes).length = genes.length + 1 ∧
    (format_csv genes).getD 0 "" = "#Locus tag\tAccession\tStart\tEnd\tStrand" ∧
    ∀ dummy : GeneView,
      (format_csv genes).getD (i + 1) "" =
        (genes.getD i dummy).locus_tag ++ "\t" ++
          (genes.getD i dummy).locus.sequence.acc ++ "." ++
          toString (genes.getD i dummy).locus.sequence.version ++ "\t" ++
          toString (genes.getD i dummy).locus.start_pos ++ "\t" ++
          toString (genes.getD i dummy).locus.end_pos ++ "\t" ++
          (genes.getD i dummy).locus.strand := by
  refine ⟨by simp [format_csv], rfl, ?_⟩
  intro dummy
  show (List.map _ genes).getD i "" = _
  rw [List.getD_eq_getElem?_getD, List.getElem?_map, List.getElem?_eq_getElem hi]
  simp only [Option.map_some', Option.getD_some]
  rw [List.getD_eq_getElem genes dummy hi]

/-- Witness for C9 at a concrete two-element list containing the same gene
twice: both copies appear, in order. -/
theorem format_csv_shape_witness :
    (format_csv [sampleGeneView, sampleGeneView]).length = 3 ∧
    (format_csv [sampleGeneView, sampleGeneView]).getD 0 "" =
      "#Locus tag\tAccession\tStart\tEnd\tStrand" ∧
    (format_csv [sampleGeneView, sampleGeneView]).getD 2 "" =
      "SCO0001\tNC_003888.3\t2\t5\t-" := by
  have h := format_csv_shape [sampleGeneView, sampleGeneView] 1 (by decide)
  exact ⟨h.1, h.2.1, by rw [h.2.2 sampleGeneView]; rfl⟩

/-! ## C8 -/

/-- **C8**: evaluating `Expression(category = genus, term = Streptomyces)`
builds the query joining Gene → Locus → DnaSequence → Genome → Taxa along
the foreign-key chain and filtering on `Taxa.genus ILIKE 'Streptomyces'`:
a gene is in the result exactly when such a join row exists for it and its
taxon's genus matches the ILIKE pattern `Streptomyces`. -/
theorem genus_streptomyces_query (db : Database) (g : Gene) :
    g ∈ gene_query_from_term db (Term.expression "genus" "Streptomyces") ↔
      g ∈ db.genes ∧ ∃ l ∈ db.loci, ∃ d ∈ db.dna_sequences, ∃ gn ∈ db.genomes,
        ∃ tx ∈ db.taxa,
          g.locus_id = l.locus_id ∧ l.sequence_id = d.sequence_id ∧
          d.genome_id = gn.genome_id ∧ gn.tax_id = tx.tax_id ∧
          sqlIlike tx.genus "Streptomyces" = true := by
  have hdisp : gene_query_from_term db (Term.expression "genus" "Streptomyces") =
      query_genus db "Streptomyces" := rfl
  rw [hdisp]
  simp only [query_genus, query_taxon_generic, List.mem_map, List.mem_filter,
    List.mem_flatMap, beq_iff_eq]
  constructor
  · rintro ⟨r, ⟨⟨g', hg', l, ⟨hl, hll⟩, d, ⟨hd, hld⟩, gn, ⟨hgn, hdg⟩, tx, ⟨htx, hgt⟩, rfl⟩,
      hilike⟩, rfl⟩
    exact ⟨hg', l, hl, d, hd, gn, hgn, tx, htx, hll, hld, hdg, hgt, hilike⟩
  · rintro ⟨hg, l, hl, d, hd, gn, hgn, tx, htx, hll, hld, hdg, hgt, hilike⟩
    exact ⟨⟨g, l, d, gn, tx⟩, ⟨⟨g, hg, l, ⟨hl, hll⟩, d, ⟨hd, hld⟩, gn, ⟨hgn, hdg⟩, tx,
      ⟨htx, hgt⟩, rfl⟩, hilike⟩, rfl⟩

/-! ## C7 -/

theorem mem_gene_by_x_clusterblast (db : Database) (term algorithm : String) (g : Gene) :
    g ∈ gene_by_x_clusterblast db term algorithm ↔
      g ∈ db.genes ∧ ∃ m ∈ db.gene_cluster_map, ∃ b ∈ db.bgcs,
        ∃ hit ∈ db.clusterblast_hits, ∃ alg ∈ db.clusterblast_algorithms,
          g.gene_id = m.gene_id ∧ m.bgc_id = b.bgc_id ∧ b.bgc_id = hit.bgc_id ∧
          hit.algorithm_id = alg.algorithm_id ∧ alg.name = algorithm ∧
          sqlIlike hit.acc term = true := by
  simp only [gene_by_x_clusterblast, List.mem_map, List.mem_filter, List.mem_flatMap,
    beq_iff_eq]
  constructor
  · rintro ⟨p, ⟨⟨⟨g', hg', m, ⟨hm, hgm⟩, b, ⟨hb, hmb⟩, hit, ⟨hhit, hbh⟩, alg, ⟨halg, hha⟩,
      rfl⟩, hname⟩, hilike⟩, rfl⟩
    exact ⟨hg', m, hm, b, hb, hit, hhit, alg, halg, hgm, hmb, hbh, hha, hname, hilike⟩
  · rintro ⟨hg, m, hm, b, hb, hit, hhit, alg, halg, hgm, hmb, hbh, hha, hname, hilike⟩
    exact ⟨(g, hit, alg), ⟨⟨⟨g, hg, m, ⟨hm, hgm⟩, b, ⟨hb, hmb⟩, hit, ⟨hhit, hbh⟩, alg,
      ⟨halg, hha⟩, rfl⟩, hname⟩, hilike⟩, rfl⟩

/-- Counterexample to C7 as stated: the search value `AB` occurs
case-insensitively as a substring of the hit accession `XABX` of `cbDb`, so a
substring-matching ClusterBlast query would return the gene, but the code's
`ILIKE`-based query (no wildcards are added around the value) returns no
rows. -/
theorem clusterblast_not_substring_counterexample :
    icontains "AB" "XABX" = true ∧
    claimed_clusterblast_query cbDb "AB" "clusterblast" =
      [{ gene_id := 1, locus_tag := "g1", locus_id := 1 }] ∧
    query_clusterblast cbDb "AB" = [] ∧
    query_clusterblast cbDb "AB" ≠ claimed_clusterblast_query cbDb "AB" "clusterblast" := by
  refine ⟨rfl, rfl, rfl, ?_⟩
  decide

/-- **C7 amended**: each of the three ClusterBlast handlers builds the query
joining genes through the cluster-membership tables to ClusterBlast hits of
the named algorithm, and matches the hit accession against the search value
with SQL `ILIKE` — a case-insensitive pattern match of the whole accession,
which behaves as a substring match only when the caller includes `%`
wildcards in the value. -/
theorem clusterblast_handlers_ilike (db : Database) (term : String) (g : Gene) :
    (g ∈ query_clusterblast db term ↔
      g ∈ db.genes ∧ ∃ m ∈ db.gene_cluster_map, ∃ b ∈ db.bgcs,
        ∃ hit ∈ db.clusterblast_hits, ∃ alg ∈ db.clusterblast_algorithms,
          g.gene_id = m.gene_id ∧ m.bgc_id = b.bgc_id ∧ b.bgc_id = hit.bgc_id ∧
          hit.algorithm_id = alg.algorithm_id ∧ alg.name = "clusterblast" ∧
          sqlIlike hit.acc term = true) ∧
    (g ∈ query_knowncluster db term ↔
      g ∈ db.genes ∧ ∃ m ∈ db.gene_cluster_map, ∃ b ∈ db.bgcs,
        ∃ hit ∈ db.clusterblast_hits, ∃ alg ∈ db.clusterblast_algorithms,
          g.gene_id = m.gene_id ∧ m.bgc_id = b.bgc_id ∧ b.bgc_id = hit.bgc_id ∧
          hit.algorithm_id = alg.algorithm_id ∧ alg.name = "knownclusterblast" ∧
          sqlIlike hit.acc term = true) ∧
    (g ∈ query_subcluster db term ↔
      g ∈ db.genes ∧ ∃ m ∈ db.gene_cluster_map, ∃ b ∈ db.bgcs,
        ∃ hit ∈ db.clusterblast_hits, ∃ alg ∈ db.clusterblast_algorithms,
          g.gene_id = m.gene_id ∧ m.bgc_id = b.bgc_id ∧ b.bgc_id = hit.bgc_id ∧
          hit.algorithm_id = alg.algorithm_id ∧ alg.name = "subclusterblast" ∧
          sqlIlike hit.acc term = true) :=
  ⟨mem_gene_by_x_clusterblast db term "clusterblast" g,
   mem_gene_by_x_clusterblast db term "knownclusterblast" g,
   mem_gene_by_x_clusterblast db term "subclusterblast" g⟩

end DbApi
